import Mathlib

/-!
Verification of the document viewport and annotation-overlay engine of the
pdf-ML repository (frontend/app/components/PdfViewer.tsx), shallowly embedded
in Lean 4.  Pixel magnitudes and normalized coordinates are modelled as
rationals, byte counts as naturals, page indices as integers, and the React
component state as an explicit record acted on by the load callbacks.
The file is organized as definitions first, theorems second.
-/

namespace PdfML

/-! ## CoordinateProjector

Source: `el.bbox.map(c => (c * pageWidth) / 1000)` in PdfViewer.tsx. -/

/-- Denormalization of a bounding-box component list from the 0-1000 space to
pixel coordinates, exactly as the source maps over `el.bbox`. -/
def project (bbox : List ℚ) (pageWidth : ℚ) : List ℚ :=
  bbox.map (fun c => c * pageWidth / 1000)

/-- A bounding box `[x_min, y_min, x_max, y_max]` in the 0-1000 normalized
space, as documented on the `bbox` field of the `Element` interface. -/
structure BBox where
  xMin : ℚ
  yMin : ℚ
  xMax : ℚ
  yMax : ℚ
deriving DecidableEq

def BBox.toList (b : BBox) : List ℚ := [b.xMin, b.yMin, b.xMax, b.yMax]

/-- The componentwise form of `project` on a four-component box; it agrees
with `project` on `BBox.toList` definitionally (see `projectBox_toList`). -/
def projectBox (b : BBox) (w : ℚ) : BBox :=
  ⟨b.xMin * w / 1000, b.yMin * w / 1000, b.xMax * w / 1000, b.yMax * w / 1000⟩

/-! ## Element and AnnotationIndex

Source: the `Element` interface and
`const annotations = elements.filter(e => e.page === currentPage)`. -/

structure Element where
  type : String
  bbox : BBox
  page : ℤ
deriving DecidableEq

/-- Per-page selection of annotation elements, exactly the source filter. -/
def forPage (elements : List Element) (p : ℤ) : List Element :=
  elements.filter (fun e => e.page == p)

/-! ## Overlay rendering

Source: the `annotations.map((el, index) => ...)` block of PdfViewer.tsx,
guarded by `pageWidth > 0`. -/

/-- The `COLOR_MAP` record literal of PdfViewer.tsx, as a partial lookup. -/
def COLOR_MAP (t : String) : Option String :=
  if t = "title" then some "border-red-500"
  else if t = "header" then some "border-blue-500"
  else if t = "paragraph" then some "border-green-500"
  else if t = "table" then some "border-purple-500"
  else if t = "figure" then some "border-yellow-500"
  else none

/-- `COLOR_MAP[el.type] || 'border-gray-500'`: the border class with the gray
fallback for unknown categories. -/
def overlayClass (t : String) : String := (COLOR_MAP t).getD "border-gray-500"

/-- The data of one rendered overlay div: the `left`, `top`, `width`,
`height` style values, the color class interpolated into `className`, and the
`title` tooltip text. -/
structure Overlay where
  left : ℚ
  top : ℚ
  width : ℚ
  height : ℚ
  borderClass : String
  titleText : String
deriving DecidableEq

/-- One overlay div, from the destructured projected box:
`const [x_min, y_min, x_max, y_max] = el.bbox.map(c => c * pageWidth / 1000)`
with `width = x_max - x_min` and `height = y_max - y_min`. -/
def overlayFor (pageWidth : ℚ) (e : Element) : Overlay :=
  let pb := projectBox e.bbox pageWidth
  { left := pb.xMin
    top := pb.yMin
    width := pb.xMax - pb.xMin
    height := pb.yMax - pb.yMin
    borderClass := overlayClass e.type
    titleText := "Type: " ++ e.type }

/-- The full overlay list for a page at a given width (the body of the
`annotations.map` call). -/
def overlaysFor (elements : List Element) (p : ℤ) (pageWidth : ℚ) : List Overlay :=
  (forPage elements p).map (overlayFor pageWidth)

/-- The overlays actually rendered: the source guards the map with
`pageWidth > 0 && ...`, so nothing is rendered at non-positive width. -/
def renderedOverlays (elements : List Element) (p : ℤ) (pageWidth : ℚ) : List Overlay :=
  if 0 < pageWidth then overlaysFor elements p pageWidth else []

/-! ## Substring containment

`String.prototype.includes` of JavaScript, written out on character lists. -/

/-- Whether `pat` occurs at the head of `s` (substring match anchored at the
start). -/
def matchesAt : List Char → List Char → Bool
  | [], _ => true
  | _ :: _, [] => false
  | a :: ps, b :: ss => a == b && matchesAt ps ss

/-- Whether `pat` occurs anywhere in the character list. -/
def hasSubList (pat : List Char) : List Char → Bool
  | [] => matchesAt pat []
  | b :: ss => matchesAt pat (b :: ss) || hasSubList pat ss

/-- `s.includes(pat)` of JavaScript. -/
def containsSubstr (s pat : String) : Bool := hasSubList pat.data s.data

/-! ## Error classification

Source: `onDocumentLoadError` of PdfViewer.tsx. -/

/-- The error taxonomy the spec surfaces to the host (§7). -/
inductive ErrorKind
  | workerUnavailable
  | corruptDocument
  | unknown
deriving DecidableEq

/-- Which branch of the `onDocumentLoadError` message classification fires,
read as the spec's taxonomy: the worker branch tests
`error.message.includes('Worker') || error.message.includes('worker')`, the
corrupt branch tests `includes('Invalid') || includes('corrupted')`, and the
default branch keeps the generic message. -/
def classifyKind (msg : String) : ErrorKind :=
  if containsSubstr msg "Worker" || containsSubstr msg "worker" then .workerUnavailable
  else if containsSubstr msg "Invalid" || containsSubstr msg "corrupted" then .corruptDocument
  else .unknown

/-- The `errorMessage` string `onDocumentLoadError` finally stores via
`setError`. -/
def surfacedMessage (msg : String) : String :=
  if containsSubstr msg "Worker" || containsSubstr msg "worker" then
    "PDF worker failed to load. Please check your internet connection and try again."
  else if containsSubstr msg "Invalid" || containsSubstr msg "corrupted" then
    "The PDF file appears to be corrupted or invalid."
  else
    "Failed to load PDF file: " ++ msg

/-! ## Load progress

Source: `onDocumentLoadProgress` of PdfViewer.tsx. -/

/-- `Math.round` of JavaScript: round half towards positive infinity. -/
def jsRound (q : ℚ) : ℤ := ⌊q + 1 / 2⌋

/-- `Math.min(100, Math.round((loaded / total) * 100))`. -/
def progressPct (loaded total : ℕ) : ℤ :=
  min 100 (jsRound ((loaded : ℚ) / (total : ℚ) * 100))

/-! ## Viewer load state and decode callbacks

The component state of PdfViewer.tsx relevant to the load lifecycle: the
`numPages`, `loadProgress` and `error` useState cells, plus the current page
the component reports through `onPageChange`.  The `generation` field is the
spec's device (§5, §9) for naming which Document activation an in-flight
decode callback belongs to; the source component keeps no such counter, and
the tag is carried here only so that staleness of a callback can be stated. -/

structure ViewerState where
  numPages : Option ℕ
  loadProgress : Option ℤ
  error : Option String
  currentPage : ℤ
  generation : ℕ
deriving DecidableEq

/-- `onDocumentLoadSuccess`: store the page count, clear the error, report
page 1 through `onPageChange`, clear the progress indicator. -/
def onDocumentLoadSuccess (s : ViewerState) (n : ℕ) : ViewerState :=
  { s with numPages := some n, error := none, currentPage := 1, loadProgress := none }

/-- `onDocumentLoadError`: store the classified message via `setError`. -/
def onDocumentLoadError (s : ViewerState) (msg : String) : ViewerState :=
  { s with error := some (surfacedMessage msg) }

/-- `onDocumentLoadProgress`: `if (loaded && total)` — both fields present
and truthy (nonzero) — store the percentage, else leave the state alone. -/
def onDocumentLoadProgress (s : ViewerState) (loaded total : Option ℕ) : ViewerState :=
  match loaded, total with
  | some l, some t =>
      if l != 0 && t != 0 then { s with loadProgress := some (progressPct l t) } else s
  | _, _ => s

/-- A decode-engine callback, tagged with the generation of the Document
activation it was issued for (the tag is the spec's notion; see
`ViewerState`). -/
inductive DecodeEvent
  | progress (gen : ℕ) (loaded total : Option ℕ)
  | success (gen : ℕ) (pageCount : ℕ)
  | failure (gen : ℕ) (msg : String)
deriving DecidableEq

def DecodeEvent.generationOf : DecodeEvent → ℕ
  | .progress g _ _ => g
  | .success g _ => g
  | .failure g _ => g

def DecodeEvent.retag : DecodeEvent → ℕ → DecodeEvent
  | .progress _ l t, g => .progress g l t
  | .success _ n, g => .success g n
  | .failure _ m, g => .failure g m

/-- Dispatch of a delivered decode callback to the handler the component
registers on the `Document` element.  The handlers are exactly the three
source functions; none of them reads the generation tag. -/
def step (s : ViewerState) : DecodeEvent → ViewerState
  | .progress _ l t => onDocumentLoadProgress s l t
  | .success _ n => onDocumentLoadSuccess s n
  | .failure _ m => onDocumentLoadError s m

/-- Modelled from the spec (§5, §9): activating a new Document increments
the generation counter, so callbacks tagged with an older generation are
stale.  The source component performs no bookkeeping at all on file change
beyond the object-URL effect. -/
def activateNewDocument (s : ViewerState) : ViewerState :=
  { s with generation := s.generation + 1 }

/-- The load state is terminal: Ready (a success stored a page count with no
error outstanding) or Errored (a failure stored an error message). -/
def isTerminal (s : ViewerState) : Bool := s.numPages.isSome || s.error.isSome

/-! ## Page navigation

Source: the Prev and Next buttons of PdfViewer.tsx. -/

/-- The page the Prev button reports: `Math.max(1, currentPage - 1)`. -/
def prevTarget (currentPage : ℤ) : ℤ := max 1 (currentPage - 1)

/-- The page the Next button reports: `Math.min(numPages, currentPage + 1)`. -/
def nextTarget (numPages currentPage : ℤ) : ℤ := min numPages (currentPage + 1)

/-- `disabled={currentPage <= 1}` on the Prev button. -/
def prevDisabled (currentPage : ℤ) : Bool := currentPage ≤ 1

/-- `disabled={currentPage >= numPages}` on the Next button. -/
def nextDisabled (numPages currentPage : ℤ) : Bool := numPages ≤ currentPage

/-! ## Object-URL lifecycle

Source: the `useEffect` of PdfViewer.tsx whose body calls
`URL.createObjectURL(file)` and returns a cleanup calling
`URL.revokeObjectURL(url)` on the same url, with dependency list `[file]`.
The trace semantics below encodes the React effect contract: on a dependency
change the previous cleanup runs before the new effect body, and on unmount
the last registered cleanup runs.  Distinct calls to `createObjectURL` are
distinct urls; activations are numbered 0, 1, 2, ... -/

inductive ResourceEvent
  | acquire (url : ℕ)
  | release (url : ℕ)
deriving DecidableEq

def isAcquire : ResourceEvent → Bool
  | .acquire _ => true
  | .release _ => false

def isRelease : ResourceEvent → Bool
  | .acquire _ => false
  | .release _ => true

/-- The live-reference multiset after one event: `createObjectURL` adds a
url, `revokeObjectURL` removes one occurrence of it. -/
def applyEvent (live : List ℕ) : ResourceEvent → List ℕ
  | .acquire u => u :: live
  | .release u => live.erase u

def runEvents (live : List ℕ) : List ResourceEvent → List ℕ
  | [] => live
  | e :: es => runEvents (applyEvent live e) es

/-- Whether at most one reference is live after every event of the trace. -/
def allBounded (live : List ℕ) : List ResourceEvent → Bool
  | [] => true
  | e :: es => decide ((applyEvent live e).length ≤ 1) && allBounded (applyEvent live e) es

/-- Events of the k-th file swap: the registered cleanup for url (k-1) runs,
then the re-run effect body acquires url k. -/
def swapPhase : ℕ → List ResourceEvent
  | 0 => []
  | n + 1 => swapPhase n ++ [.release n, .acquire (n + 1)]

/-- The full object-URL event trace of a viewer session: the mount effect
acquires url 0, each of the n swaps releases the previous url and acquires a
fresh one, and teardown runs the final cleanup. -/
def sessionEvents (n : ℕ) : List ResourceEvent :=
  .acquire 0 :: (swapPhase n ++ [.release n])

/-! ## Concrete states and elements used in witnesses and counterexamples -/

/-- The title element of the spec scenario. -/
def demoTitle : Element := ⟨"title", ⟨100, 100, 900, 200⟩, 1⟩

/-- The table element of the spec scenario. -/
def demoTable : Element := ⟨"table", ⟨0, 0, 1000, 1000⟩, 2⟩

/-- An element with an inverted box: xMin = 900 > 100 = xMax. -/
def invertedTitle : Element := ⟨"title", ⟨900, 100, 100, 200⟩, 1⟩

/-- An element inverted on the y-axis only: yMin = 200 > 100 = yMax while
xMin = 100 ≤ 900 = xMax. -/
def invertedFigure : Element := ⟨"figure", ⟨100, 200, 900, 100⟩, 1⟩

/-- An element whose type is outside the enumerated category set. -/
def footnoteElement : Element := ⟨"footnote", ⟨100, 100, 900, 200⟩, 1⟩

/-- The freshly mounted component state. -/
def idleState : ViewerState := ⟨none, none, none, 1, 1⟩

/-- The state right after a second Document was activated while the first
load (generation 1) is still in flight. -/
def staleContext : ViewerState := activateNewDocument idleState

/-- A Ready state: a success callback stored a page count of 3. -/
def readyState : ViewerState := onDocumentLoadSuccess idleState 3

end PdfML

namespace PdfML

/-! ## Theorems -/

theorem projectBox_toList (b : BBox) (w : ℚ) :
    (projectBox b w).toList = project b.toList w := rfl

/-- C1: for every bounding box with four components in the 0-1000 space and
every positive width, the overlay projection scales each of the four
components independently by w/1000. -/
theorem projection_scales_componentwise (a b c d w : ℚ)
    (ha : 0 ≤ a ∧ a ≤ 1000) (hb : 0 ≤ b ∧ b ≤ 1000)
    (hc : 0 ≤ c ∧ c ≤ 1000) (hd : 0 ≤ d ∧ d ≤ 1000) (hw : 0 < w) :
    project [a, b, c, d] w
      = [a * w / 1000, b * w / 1000, c * w / 1000, d * w / 1000] := by
  simp [project]

/-- C1 witness: the spec scenario bbox [100,100,900,200] at width 800
projects to the pixel box [80,80,720,160], of width 640 and height 80. -/
theorem projection_scales_componentwise_witness :
    project [100, 100, 900, 200] 800 = [80, 80, 720, 160]
      ∧ (720 : ℚ) - 80 = 640 ∧ (160 : ℚ) - 80 = 80 := by
  refine ⟨?_, by norm_num, by norm_num⟩
  have h := projection_scales_componentwise 100 100 900 200 800
    (by norm_num) (by norm_num) (by norm_num) (by norm_num) (by norm_num)
  rw [h]
  norm_num

/-- C2: the per-page selection returns exactly the subsequence of elements
whose page equals the query, in the original relative order, including for
the empty list and for lists with no match. -/
theorem forPage_exact_subsequence (elements : List Element) (p : ℤ) :
    (forPage elements p).Sublist elements
      ∧ (∀ e, e ∈ forPage elements p ↔ e ∈ elements ∧ e.page = p)
      ∧ forPage [] p = []
      ∧ ((∀ e ∈ elements, e.page ≠ p) → forPage elements p = []) := by
  refine ⟨List.filter_sublist _, ?_, rfl, ?_⟩
  · intro e
    simp [forPage, List.mem_filter]
  · intro h
    simp only [forPage, List.filter_eq_nil_iff]
    intro e he
    simpa using h e he

/-- C2 witness: the selection facts instantiated on the concrete scenario
list and on the empty list. -/
theorem forPage_exact_subsequence_witness :
    (forPage [demoTitle, demoTable] 1).Sublist [demoTitle, demoTable]
      ∧ forPage ([] : List Element) 1 = []
      ∧ (demoTitle ∈ forPage [demoTitle, demoTable] 1
          ↔ demoTitle ∈ [demoTitle, demoTable] ∧ demoTitle.page = 1) :=
  ⟨(forPage_exact_subsequence [demoTitle, demoTable] 1).1,
   (forPage_exact_subsequence [] 1).2.2.1,
   (forPage_exact_subsequence [demoTitle, demoTable] 1).2.1 demoTitle⟩

/-! ### Substring containment helper lemmas -/

theorem matchesAt_self (l : List Char) : matchesAt l l = true := by
  induction l with
  | nil => rfl
  | cons a as ih => simp [matchesAt, ih]

theorem hasSubList_self (pat : List Char) : hasSubList pat pat = true := by
  cases pat with
  | nil => rfl
  | cons a as => simp [hasSubList, matchesAt_self]

theorem hasSubList_append (pat xs s : List Char) (h : hasSubList pat s = true) :
    hasSubList pat (xs ++ s) = true := by
  induction xs with
  | nil => exact h
  | cons b bs ih => simp [hasSubList, ih]

/-- A string is contained in any string extending it on the left. -/
theorem containsSubstr_append_right (pre msg : String) :
    containsSubstr (pre ++ msg) msg = true := by
  unfold containsSubstr
  rw [String.data_append]
  exact hasSubList_append _ _ _ (hasSubList_self _)

/-! ### Error classification (C4) -/

/-- C4 counterexample: the message "Invalid PDF structure" contains neither
"worker" nor "corrupted", so the claim classifies it Unknown, yet the code
classifies it as a corrupt document (the `Invalid` substring also triggers
the corrupt branch). -/
theorem classify_invalid_not_unknown :
    containsSubstr "Invalid PDF structure" "worker" = false
      ∧ containsSubstr "Invalid PDF structure" "corrupted" = false
      ∧ classifyKind "Invalid PDF structure" ≠ ErrorKind.unknown := by
  refine ⟨by decide, by decide, by decide⟩

/-- C4 amended: a message containing "Worker" or "worker" classifies as
WorkerUnavailable; otherwise a message containing "Invalid" or "corrupted"
classifies as CorruptDocument; any remaining message classifies as Unknown
with the raw message preserved inside the surfaced text. -/
theorem classification_branches (msg : String) :
    ((containsSubstr msg "Worker" || containsSubstr msg "worker") = true →
        classifyKind msg = ErrorKind.workerUnavailable)
      ∧ ((containsSubstr msg "Worker" || containsSubstr msg "worker") = false →
          (containsSubstr msg "Invalid" || containsSubstr msg "corrupted") = true →
            classifyKind msg = ErrorKind.corruptDocument)
      ∧ ((containsSubstr msg "Worker" || containsSubstr msg "worker") = false →
          (containsSubstr msg "Invalid" || containsSubstr msg "corrupted") = false →
            classifyKind msg = ErrorKind.unknown
              ∧ surfacedMessage msg = "Failed to load PDF file: " ++ msg
              ∧ containsSubstr (surfacedMessage msg) msg = true) := by
  refine ⟨?_, ?_, ?_⟩
  · intro h
    simp [classifyKind, h]
  · intro h1 h2
    simp [classifyKind, h1, h2]
  · intro h1 h2
    have hs : surfacedMessage msg = "Failed to load PDF file: " ++ msg := by
      simp [surfacedMessage, h1, h2]
    refine ⟨by simp [classifyKind, h1, h2], hs, ?_⟩
    rw [hs]
    exact containsSubstr_append_right _ _

/-- C4 amended witness: the unmatched message "boom" classifies as Unknown
and survives inside the surfaced text. -/
theorem classification_branches_witness :
    classifyKind "boom" = ErrorKind.unknown
      ∧ containsSubstr (surfacedMessage "boom") "boom" = true :=
  ⟨((classification_branches "boom").2.2 (by decide) (by decide)).1,
   ((classification_branches "boom").2.2 (by decide) (by decide)).2.2⟩

/-! ### Load progress (C5) -/

/-- C5 counterexample: a report with loaded = 0 and total = 10 should, per
the claim, store progress min(100, round(0/10*100)) = 0; the handler's
JavaScript truthiness test `if (loaded && total)` skips the update instead,
leaving the stored progress unchanged (here: still unknown). -/
theorem zero_loaded_report_ignored :
    min 100 (jsRound ((0 : ℚ) / (10 : ℚ) * 100)) = 0
      ∧ (onDocumentLoadProgress idleState (some 0) (some 10)).loadProgress = none
      ∧ (onDocumentLoadProgress idleState (some 0) (some 10)).loadProgress
          ≠ some (min 100 (jsRound ((0 : ℚ) / (10 : ℚ) * 100))) := by
  refine ⟨by norm_num [jsRound], rfl, ?_⟩
  intro h
  have h2 : (none : Option ℤ) = some (min 100 (jsRound ((0 : ℚ) / (10 : ℚ) * 100))) := h
  exact Option.noConfusion h2

/-- C5 amended: the handler updates the stored progress only when loaded and
total are both present and both nonzero (JavaScript truthiness); the stored
value is then min(100, round(loaded/total*100)), which never exceeds 100.  A
report with loaded = 0 or total = 0, or with a field absent, leaves the whole
state unchanged. -/
theorem progress_truthiness_rule (s : ViewerState) (l t : ℕ) (o : Option ℕ) :
    (l ≠ 0 → t ≠ 0 →
        onDocumentLoadProgress s (some l) (some t)
            = { s with loadProgress := some (progressPct l t) }
          ∧ progressPct l t ≤ 100)
      ∧ onDocumentLoadProgress s (some 0) (some t) = s
      ∧ onDocumentLoadProgress s (some l) (some 0) = s
      ∧ onDocumentLoadProgress s none o = s
      ∧ onDocumentLoadProgress s o none = s := by
  refine ⟨?_, ?_, ?_, ?_, ?_⟩
  · intro hl ht
    exact ⟨by simp [onDocumentLoadProgress, hl, ht], min_le_left _ _⟩
  · simp [onDocumentLoadProgress]
  · simp [onDocumentLoadProgress]
  · cases o <;> rfl
  · cases o <;> rfl

/-- C5 amended witness: a 50-of-200 report stores 25 percent, and a
zero-loaded report is a no-op. -/
theorem progress_truthiness_rule_witness :
    onDocumentLoadProgress idleState (some 50) (some 200)
        = { idleState with loadProgress := some (progressPct 50 200) }
      ∧ progressPct 50 200 = 25
      ∧ onDocumentLoadProgress idleState (some 0) (some 200) = idleState :=
  ⟨((progress_truthiness_rule idleState 50 200 none).1
      (by norm_num) (by norm_num)).1,
   by norm_num [progressPct, jsRound],
   (progress_truthiness_rule idleState 50 200 none).2.1⟩

/-! ### Late callbacks and generation identity (C3) -/

/-- C3 counterexample: after a second Document is activated (generation 2),
the success callback of the superseded generation-1 load is not discarded:
it still stores its page count into the new Document's state. -/
theorem stale_success_still_applied :
    (DecodeEvent.success 1 5).generationOf ≠ staleContext.generation
      ∧ step staleContext (DecodeEvent.success 1 5) ≠ staleContext := by
  exact ⟨by decide, by decide⟩

/-- C3 amended: the load callbacks perform no identity or generation check
at all; a delivered callback is processed identically whatever generation it
is tagged with, so a late-arriving event of a superseded Document updates
the state exactly as a current one would. -/
theorem step_ignores_generation (s : ViewerState) (e : DecodeEvent) (g : ℕ) :
    step s (e.retag g) = step s e ∧ (e.retag g).generationOf = g := by
  cases e <;> exact ⟨rfl, rfl⟩

/-! ### Progress after a terminal state (C8) -/

/-- C8 counterexample: in the Ready state reached by a success callback, a
later progress report is not discarded: it stores a new progress value. -/
theorem ready_progress_still_applied :
    isTerminal readyState = true
      ∧ step readyState (DecodeEvent.progress 1 (some 50) (some 100)) ≠ readyState := by
  refine ⟨rfl, ?_⟩
  intro heq
  have h2 : (step readyState (DecodeEvent.progress 1 (some 50) (some 100))).loadProgress
      = some (progressPct 50 100) := rfl
  rw [heq] at h2
  have h3 : (none : Option ℤ) = some (progressPct 50 100) := h2
  exact Option.noConfusion h3

/-- C8 amended: the progress handler never consults the load state; a
progress report with truthy loaded and total fields updates the stored
progress in every state, terminal or not.  (A success does clear the stored
progress, but a report arriving afterwards is still applied.) -/
theorem progress_handler_ignores_load_state (s : ViewerState) (g l t : ℕ)
    (hl : l ≠ 0) (ht : t ≠ 0) :
    step s (DecodeEvent.progress g (some l) (some t))
      = { s with loadProgress := some (progressPct l t) } := by
  simp [step, onDocumentLoadProgress, hl, ht]

/-- C8 amended witness: applied in the terminal Ready state. -/
theorem progress_handler_ignores_load_state_witness :
    step readyState (DecodeEvent.progress 1 (some 50) (some 100))
        = { readyState with loadProgress := some (progressPct 50 100) }
      ∧ isTerminal readyState = true :=
  ⟨progress_handler_ignores_load_state readyState 1 50 100
      (by norm_num) (by norm_num), rfl⟩

/-! ### Page navigation (C6) -/

/-- C6: with a known page count p ≥ 1 and the current page in bounds, the
Prev target is max(1, cur-1) and the Next target is min(p, cur+1), both stay
inside [1, p], and at the boundaries the buttons are no-ops (and disabled). -/
theorem navigation_clamps (p cur : ℤ) (hp : 1 ≤ p) (h1 : 1 ≤ cur) (hcp : cur ≤ p) :
    (1 ≤ prevTarget cur ∧ prevTarget cur ≤ p)
      ∧ (1 ≤ nextTarget p cur ∧ nextTarget p cur ≤ p)
      ∧ (cur = 1 → prevTarget cur = cur ∧ prevDisabled cur = true)
      ∧ (cur = p → nextTarget p cur = cur ∧ nextDisabled p cur = true) := by
  unfold prevTarget nextTarget prevDisabled nextDisabled
  refine ⟨⟨by omega, by omega⟩, ⟨by omega, by omega⟩, ?_, ?_⟩
  · intro h
    subst h
    exact ⟨by omega, by decide⟩
  · intro h
    subst h
    exact ⟨by omega, by simp⟩

/-- C6 witness: with 3 pages, Prev at page 1 and Next at page 3 are no-ops
with their buttons disabled. -/
theorem navigation_clamps_witness :
    (prevTarget 1 = 1 ∧ prevDisabled 1 = true)
      ∧ (nextTarget 3 3 = 3 ∧ nextDisabled 3 3 = true) :=
  ⟨(navigation_clamps 3 1 (by norm_num) (by norm_num) (by norm_num)).2.2.1 rfl,
   (navigation_clamps 3 3 (by norm_num) (by norm_num) (by norm_num)).2.2.2 rfl⟩

/-! ### Overlay rendering (C7, C10) -/

/-- Every in-bounds matching element yields its overlay in the rendered
list, as long as the measured width is positive. -/
theorem overlay_mem_renderedOverlays (w : ℚ) (e : Element) (es : List Element)
    (p : ℤ) (hw : 0 < w) (he : e ∈ es) (hp : e.page = p) :
    overlayFor w e ∈ renderedOverlays es p w := by
  unfold renderedOverlays
  rw [if_pos hw]
  refine List.mem_map_of_mem _ ?_
  unfold forPage
  rw [List.mem_filter]
  exact ⟨he, by simp [hp]⟩

/-- C7 counterexample: the inverted box [900,100,100,200] on page 1 at width
800 is rendered as an overlay of width -640: it is neither rejected nor
clamped. -/
theorem inverted_box_rendered_negative :
    renderedOverlays [invertedTitle] 1 800
        = [⟨720, 80, -640, 80, "border-red-500", "Type: title"⟩]
      ∧ ((-640 : ℚ) < 0) := by
  constructor
  · simp only [renderedOverlays, overlaysFor, forPage, invertedTitle]
    norm_num [overlayFor, projectBox, overlayClass, COLOR_MAP]
    rfl
  · norm_num

/-- C7 amended: an annotation with an inverted box (xMin > xMax or
yMin > yMax) is passed through unchanged: its overlay is produced at the
projected position with width and height obtained componentwise from the
projection, so the overlay is negative-sized (negative width for an
x-inverted box, negative height for a y-inverted box); no rejection or
clamping happens in the viewer. -/
theorem inverted_box_overlay (w : ℚ) (e : Element) (es : List Element) (p : ℤ)
    (hw : 0 < w) (he : e ∈ es) (hp : e.page = p)
    (hinv : e.bbox.xMax < e.bbox.xMin ∨ e.bbox.yMax < e.bbox.yMin) :
    overlayFor w e ∈ renderedOverlays es p w
      ∧ (overlayFor w e).width = (e.bbox.xMax - e.bbox.xMin) * w / 1000
      ∧ (overlayFor w e).height = (e.bbox.yMax - e.bbox.yMin) * w / 1000
      ∧ ((overlayFor w e).width < 0 ∨ (overlayFor w e).height < 0)
      ∧ (e.bbox.xMax < e.bbox.xMin → (overlayFor w e).width < 0)
      ∧ (e.bbox.yMax < e.bbox.yMin → (overlayFor w e).height < 0) := by
  have hwidth : (overlayFor w e).width = (e.bbox.xMax - e.bbox.xMin) * w / 1000 := by
    simp [overlayFor, projectBox]
    ring
  have hheight : (overlayFor w e).height = (e.bbox.yMax - e.bbox.yMin) * w / 1000 := by
    simp [overlayFor, projectBox]
    ring
  have hwneg : e.bbox.xMax < e.bbox.xMin → (overlayFor w e).width < 0 := by
    intro hx
    rw [hwidth]
    have hneg : e.bbox.xMax - e.bbox.xMin < 0 := by linarith
    exact div_neg_of_neg_of_pos (mul_neg_of_neg_of_pos hneg hw) (by norm_num)
  have hhneg : e.bbox.yMax < e.bbox.yMin → (overlayFor w e).height < 0 := by
    intro hy
    rw [hheight]
    have hneg : e.bbox.yMax - e.bbox.yMin < 0 := by linarith
    exact div_neg_of_neg_of_pos (mul_neg_of_neg_of_pos hneg hw) (by norm_num)
  refine ⟨overlay_mem_renderedOverlays w e es p hw he hp, hwidth, hheight, ?_, hwneg, hhneg⟩
  rcases hinv with hx | hy
  · exact Or.inl (hwneg hx)
  · exact Or.inr (hhneg hy)

/-- C7 amended witness: the x-inverted scenario element produces a rendered
overlay of negative width, and the y-inverted element a rendered overlay of
negative height. -/
theorem inverted_box_overlay_witness :
    (overlayFor 800 invertedTitle ∈ renderedOverlays [invertedTitle] 1 800
        ∧ (overlayFor 800 invertedTitle).width < 0)
      ∧ (overlayFor 800 invertedFigure ∈ renderedOverlays [invertedFigure] 1 800
        ∧ (overlayFor 800 invertedFigure).height < 0) :=
  ⟨⟨(inverted_box_overlay 800 invertedTitle [invertedTitle] 1
        (by norm_num) (by simp) rfl (Or.inl (by norm_num [invertedTitle]))).1,
    (inverted_box_overlay 800 invertedTitle [invertedTitle] 1
        (by norm_num) (by simp) rfl
        (Or.inl (by norm_num [invertedTitle]))).2.2.2.2.1
      (by norm_num [invertedTitle])⟩,
   ⟨(inverted_box_overlay 800 invertedFigure [invertedFigure] 1
        (by norm_num) (by simp) rfl (Or.inr (by norm_num [invertedFigure]))).1,
    (inverted_box_overlay 800 invertedFigure [invertedFigure] 1
        (by norm_num) (by simp) rfl
        (Or.inr (by norm_num [invertedFigure]))).2.2.2.2.2
      (by norm_num [invertedFigure])⟩⟩

/-- C10: an annotation whose type is outside the enumerated category set is
still rendered: its overlay appears in the overlay list at the projected
position, with the gray fallback border class. -/
theorem unknown_type_gray_overlay (w : ℚ) (e : Element) (es : List Element)
    (p : ℤ) (hw : 0 < w) (he : e ∈ es) (hp : e.page = p)
    (ht : e.type ∉ ["title", "header", "paragraph", "table", "figure"]) :
    overlayFor w e ∈ renderedOverlays es p w
      ∧ (overlayFor w e).borderClass = "border-gray-500"
      ∧ (overlayFor w e).left = e.bbox.xMin * w / 1000
      ∧ (overlayFor w e).top = e.bbox.yMin * w / 1000 := by
  refine ⟨overlay_mem_renderedOverlays w e es p hw he hp, ?_, rfl, rfl⟩
  simp only [List.mem_cons, List.not_mem_nil, or_false] at ht
  push_neg at ht
  obtain ⟨ht1, ht2, ht3, ht4, ht5⟩ := ht
  simp [overlayFor, overlayClass, COLOR_MAP, ht1, ht2, ht3, ht4, ht5]

/-- C10 witness: a "footnote" element is rendered with the gray border. -/
theorem unknown_type_gray_overlay_witness :
    overlayFor 800 footnoteElement ∈ renderedOverlays [footnoteElement] 1 800
      ∧ (overlayFor 800 footnoteElement).borderClass = "border-gray-500" :=
  ⟨(unknown_type_gray_overlay 800 footnoteElement [footnoteElement] 1
      (by norm_num) (by simp) rfl (by decide)).1,
   (unknown_type_gray_overlay 800 footnoteElement [footnoteElement] 1
      (by norm_num) (by simp) rfl (by decide)).2.1⟩

/-! ### Object-URL lifecycle (C9) -/

theorem runEvents_append (live : List ℕ) (xs ys : List ResourceEvent) :
    runEvents live (xs ++ ys) = runEvents (runEvents live xs) ys := by
  induction xs generalizing live with
  | nil => rfl
  | cons e es ih => exact ih (applyEvent live e)

theorem allBounded_append (live : List ℕ) (xs ys : List ResourceEvent) :
    allBounded live (xs ++ ys)
      = (allBounded live xs && allBounded (runEvents live xs) ys) := by
  induction xs generalizing live with
  | nil => simp [allBounded, runEvents]
  | cons e es ih => simp [allBounded, runEvents, ih, Bool.and_assoc]

theorem runEvents_swapPhase (n : ℕ) : runEvents [0] (swapPhase n) = [n] := by
  induction n with
  | zero => rfl
  | succ k ih =>
      rw [swapPhase, runEvents_append, ih]
      simp [runEvents, applyEvent, List.erase_cons_head]

theorem allBounded_swapPhase (n : ℕ) : allBounded [0] (swapPhase n) = true := by
  induction n with
  | zero => rfl
  | succ k ih =>
      rw [swapPhase, allBounded_append, ih, runEvents_swapPhase]
      simp [allBounded, applyEvent, List.erase_cons_head]

theorem swapPhase_countP_acquire (n : ℕ) : (swapPhase n).countP isAcquire = n := by
  induction n with
  | zero => rfl
  | succ k ih =>
      rw [swapPhase, List.countP_append, ih]
      rfl

theorem swapPhase_countP_release (n : ℕ) : (swapPhase n).countP isRelease = n := by
  induction n with
  | zero => rfl
  | succ k ih =>
      rw [swapPhase, List.countP_append, ih]
      rfl

theorem swapPhase_isPrefix (i n : ℕ) (h : i ≤ n) : swapPhase i <+: swapPhase n := by
  induction n with
  | zero =>
      have hz : i = 0 := Nat.le_zero.mp h
      subst hz
      exact List.prefix_refl _
  | succ k ih =>
      rcases Nat.lt_or_ge i (k + 1) with hlt | hge
      · refine (ih (Nat.lt_succ_iff.mp hlt)).trans ?_
        rw [swapPhase]
        exact List.prefix_append _ _
      · have hik : i = k + 1 := le_antisymm h hge
        subst hik
        exact List.prefix_refl _

/-- In the session trace, the release of reference i precedes the acquire of
reference i+1. -/
theorem release_precedes_next_acquire (i n : ℕ) (h : i < n) :
    [ResourceEvent.release i, ResourceEvent.acquire (i + 1)].Sublist (sessionEvents n) := by
  have h1 : [ResourceEvent.release i, ResourceEvent.acquire (i + 1)] <:+ swapPhase (i + 1) := by
    rw [swapPhase]
    exact List.suffix_append _ _
  have h2 : swapPhase (i + 1) <+: swapPhase n := swapPhase_isPrefix _ _ h
  have h3 := h1.sublist.trans h2.sublist
  unfold sessionEvents
  exact (h3.trans (List.sublist_append_left _ _)).cons _

/-- C9: across a session with an initial Document, n Document swaps and a
teardown, the object-URL trace acquires n+1 references and releases n+1
references (release count equals acquire count), at most one reference is
live after every event, every reference is released by the end, and each
swap releases the previous reference before acquiring the next. -/
theorem objectUrl_lifecycle_balanced (n : ℕ) :
    (sessionEvents n).countP isAcquire = n + 1
      ∧ (sessionEvents n).countP isRelease = n + 1
      ∧ allBounded [] (sessionEvents n) = true
      ∧ runEvents [] (sessionEvents n) = []
      ∧ (∀ i, i < n →
          [ResourceEvent.release i, ResourceEvent.acquire (i + 1)].Sublist
            (sessionEvents n)) := by
  refine ⟨?_, ?_, ?_, ?_, fun i hi => release_precedes_next_acquire i n hi⟩
  · unfold sessionEvents
    rw [List.countP_cons, List.countP_append, swapPhase_countP_acquire]
    rfl
  · unfold sessionEvents
    rw [List.countP_cons, List.countP_append, swapPhase_countP_release]
    rfl
  · show allBounded [] (ResourceEvent.acquire 0 :: (swapPhase n ++ [ResourceEvent.release n])) = true
    have hb : allBounded [0] (swapPhase n ++ [ResourceEvent.release n]) = true := by
      rw [allBounded_append, allBounded_swapPhase, runEvents_swapPhase]
      simp [allBounded, applyEvent, List.erase_cons_head]
    simp [allBounded, applyEvent, hb]
  · show runEvents [] (ResourceEvent.acquire 0 :: (swapPhase n ++ [ResourceEvent.release n])) = []
    have hr : runEvents [] (ResourceEvent.acquire 0 :: (swapPhase n ++ [ResourceEvent.release n]))
        = runEvents (runEvents [0] (swapPhase n)) [ResourceEvent.release n] := by
      show runEvents [0] (swapPhase n ++ [ResourceEvent.release n]) = _
      rw [runEvents_append]
    rw [hr, runEvents_swapPhase]
    simp [runEvents, applyEvent, List.erase_cons_head]

/-- C9 witness: the full lifecycle facts at a session with two swaps. -/
theorem objectUrl_lifecycle_balanced_witness :
    (sessionEvents 2).countP isAcquire = 3
      ∧ (sessionEvents 2).countP isRelease = 3
      ∧ runEvents [] (sessionEvents 2) = []
      ∧ [ResourceEvent.release 1, ResourceEvent.acquire 2].Sublist (sessionEvents 2) :=
  ⟨(objectUrl_lifecycle_balanced 2).1,
   (objectUrl_lifecycle_balanced 2).2.1,
   (objectUrl_lifecycle_balanced 2).2.2.2.1,
   (objectUrl_lifecycle_balanced 2).2.2.2.2 1 (by norm_num)⟩

end PdfML
